import Mathlib

/-!
Shallow embedding of the Pokemon TCG Checker backend (src/main.py and src/schemas.py).

The HTTP handlers are modelled as total Lean functions; each outbound effect (the
upstream catalog call, the document-store insert and query, the environment) is passed
in explicitly as data, so every handler is a pure function of its request and of the
observed behaviour of its collaborators.  Python exceptions are modelled with
`Except`/`PyExc`, and fastapi's `HTTPException` responses with `HResult.httpError`.
-/

/-- Truthiness of an optional string, as Python evaluates `if x:` for
`x : Optional[str]` — both `None` and the empty string are falsy. -/
def truthyOpt : Option String → Bool
  | none => false
  | some s => s != ""

/-- Result of a handler invocation: a value returned with status 200, or an
`HTTPException` carrying a status code and a detail string. -/
inductive HResult (α : Type) where
  | ok (value : α)
  | httpError (status : Nat) (detail : String)
  deriving DecidableEq, Repr

/-- A Python exception as these handlers can see one: a fastapi `HTTPException`
(status code plus detail) or any other exception carrying its message. -/
inductive PyExc where
  | httpExc (status_code : Nat) (detail : String)
  | otherExc (msg : String)
  deriving DecidableEq, Repr

/-- Embedding of `str(e)`: starlette renders an `HTTPException` as
`"<status_code>: <detail>"`; any other exception is rendered as its message. -/
def strOfExc : PyExc → String
  | .httpExc s d => toString s ++ ": " ++ d
  | .otherExc m => m

/-- A response from the upstream catalog API: status code, raw text body, and the
result of `r.json()` (which may itself raise, carrying a parse-error message). -/
structure UpstreamResp where
  status_code : Nat
  text : String
  json : Except String String

/-- The query-parameter dictionary built by `search_cards` (src/main.py lines 81-83):
`page` and `pageSize` always present, `q` present only when truthy. -/
structure CardsParams where
  page : Int
  pageSize : Int
  q : Option String
  deriving DecidableEq, Repr

/-- Embedding of the `params` construction in `search_cards`: start from
`page`/`pageSize`, then `if q: params["q"] = q`. -/
def cardsParams (q : Option String) (page pageSize : Int) : CardsParams :=
  { page := page, pageSize := pageSize, q := if truthyOpt q then q else none }

/-- The `try` block of `search_cards` (src/main.py lines 80-88).  The outbound call is
abstracted as a function from the forwarded params to a transport error or a response;
a non-200 status raises `HTTPException(r.status_code, r.text)` and a parse failure of
`r.json()` raises an ordinary exception. -/
def search_cards_try (params : CardsParams)
    (upstream : CardsParams → Except String UpstreamResp) : Except PyExc String :=
  match upstream params with
  | .error msg => .error (.otherExc msg)
  | .ok r =>
    if r.status_code ≠ 200 then .error (.httpExc r.status_code r.text)
    else
      match r.json with
      | .ok data => .ok data
      | .error msg => .error (.otherExc msg)

/-- Embedding of the `GET /api/cards` handler `search_cards` (src/main.py lines 71-90).
FastAPI resolves the query defaults (`page=1`, `pageSize=24`); the blanket
`except Exception` at line 89 turns every exception raised in the `try` block —
including the `HTTPException` raised for a non-200 upstream status at line 86 — into
`HTTPException(500, str(e))`. -/
def search_cards (q : Option String) (page pageSize : Option Int)
    (upstream : CardsParams → Except String UpstreamResp) : HResult String :=
  match search_cards_try (cardsParams q (page.getD 1) (pageSize.getD 24)) upstream with
  | .ok data => .ok data
  | .error e => .httpError 500 (strOfExc e)

/-- The `try` block of `get_card` (src/main.py lines 94-98); the upstream call is keyed
by the card id interpolated into the path. -/
def get_card_try (card_id : String)
    (upstream : String → Except String UpstreamResp) : Except PyExc String :=
  match upstream card_id with
  | .error msg => .error (.otherExc msg)
  | .ok r =>
    if r.status_code ≠ 200 then .error (.httpExc r.status_code r.text)
    else
      match r.json with
      | .ok data => .ok data
      | .error msg => .error (.otherExc msg)

/-- Embedding of the `GET /api/cards/:card_id` handler `get_card`
(src/main.py lines 92-100), with the same blanket `except Exception` as
`search_cards`. -/
def get_card (card_id : String)
    (upstream : String → Except String UpstreamResp) : HResult String :=
  match get_card_try card_id upstream with
  | .ok data => .ok data
  | .error e => .httpError 500 (strOfExc e)

/-- The query-parameter dictionary built by `list_sets` (src/main.py lines 105-107):
`page` and `pageSize` always present, `orderBy` present only when truthy. -/
structure SetsParams where
  page : Int
  pageSize : Int
  orderBy : Option String
  deriving DecidableEq, Repr

/-- Embedding of the `params` construction in `list_sets`. -/
def setsParams (page pageSize : Int) (orderBy : Option String) : SetsParams :=
  { page := page, pageSize := pageSize,
    orderBy := if truthyOpt orderBy then orderBy else none }

/-- The `try` block of `list_sets` (src/main.py lines 104-111). -/
def list_sets_try (params : SetsParams)
    (upstream : SetsParams → Except String UpstreamResp) : Except PyExc String :=
  match upstream params with
  | .error msg => .error (.otherExc msg)
  | .ok r =>
    if r.status_code ≠ 200 then .error (.httpExc r.status_code r.text)
    else
      match r.json with
      | .ok data => .ok data
      | .error msg => .error (.otherExc msg)

/-- Embedding of the `GET /api/sets` handler `list_sets` (src/main.py lines 102-113),
with defaults `page=1`, `pageSize=50` and the same blanket `except Exception`. -/
def list_sets (page pageSize : Option Int) (orderBy : Option String)
    (upstream : SetsParams → Except String UpstreamResp) : HResult String :=
  match list_sets_try (setsParams (page.getD 1) (pageSize.getD 50) orderBy) upstream with
  | .ok data => .ok data
  | .error e => .httpError 500 (strOfExc e)

/-- The four Cardmarket credential environment variables, each possibly unset. -/
structure CMEnv where
  app_token : Option String
  app_secret : Option String
  access_token : Option String
  access_token_secret : Option String
  deriving DecidableEq, Repr

/-- Embedding of the `GET /api/prices/cardmarket/:card_id` handler
`get_cardmarket_price` (src/main.py lines 119-129): only `CARDMARKET_APP_TOKEN` is
read; `if not app_token:` treats an unset variable and an empty string alike. -/
def get_cardmarket_price (card_id : String) (env : CMEnv) : HResult String :=
  if !truthyOpt env.app_token then
    .httpError 501 "Cardmarket API not configured. Provide OAuth credentials to enable."
  else
    .httpError 501 "Cardmarket integration pending implementation."

/-- Embedding of the request model `WishlistIn` declared in src/main.py lines 23-32.
Note that there `desired_price` is a plain `Optional[float]` with no bound, and
`status` is a plain `Optional[str]` with default `"watching"` and no enumeration. -/
structure WishlistIn where
  card_id : String
  name : String
  set_name : Option String
  set_id : Option String
  number : Option String
  image_url : Option String
  desired_price : Option ℚ
  notes : Option String
  status : Option String
  deriving DecidableEq, Repr

/-- Embedding of the pydantic model `WishlistItem` declared in src/schemas.py
lines 19-32: `desired_price` carries the validator `ge=0`, and `status` is a
non-optional `str` defaulting to `"watching"` (its `watching | bought | removed`
enumeration appears only in the human-readable field description). -/
structure WishlistItem where
  card_id : String
  name : String
  set_name : Option String
  set_id : Option String
  number : Option String
  image_url : Option String
  desired_price : Option ℚ
  notes : Option String
  status : String
  deriving DecidableEq, Repr

/-- A well-typed JSON body for `POST /api/wishlist`.  `none` marks an absent key; for
`status` the value is `Option (Option String)` so that an absent key (`none`) is
distinguished from an explicit `null` (`some none`), which matters because the
declared default is the non-null string `"watching"`.  Floats are modelled as `ℚ`. -/
structure RawPayload where
  card_id : Option String
  name : Option String
  set_name : Option String
  set_id : Option String
  number : Option String
  image_url : Option String
  desired_price : Option ℚ
  notes : Option String
  status : Option (Option String)
  deriving DecidableEq, Repr

/-- Pydantic validation of a body against `main.WishlistIn`: `card_id` and `name` are
required, every other field is optional with no further constraint, and an absent
`status` key takes the default `"watching"` while an explicit `null` stays `None`. -/
def WishlistIn.validate (p : RawPayload) : Except String WishlistIn :=
  match p.card_id with
  | none => .error "card_id: field required"
  | some cid =>
    match p.name with
    | none => .error "name: field required"
    | some nm =>
      .ok { card_id := cid, name := nm, set_name := p.set_name, set_id := p.set_id,
            number := p.number, image_url := p.image_url,
            desired_price := p.desired_price, notes := p.notes,
            status := (match p.status with | none => some "watching" | some v => v) }

/-- Resolution of `status: str = Field("watching")` in `schemas.WishlistItem`: an
absent key takes the default, an explicit `null` is rejected (the field is not
Optional there), and any string value passes. -/
def resolveStatusStr : Option (Option String) → Except String String
  | none => .ok "watching"
  | some none => .error "status: none is not an allowed value"
  | some (some s) => .ok s

/-- Pydantic validation of a body against `schemas.WishlistItem`: like
`WishlistIn.validate` but `desired_price`, when present, must satisfy `ge=0`, and
`status` must be a string (no explicit `null`). -/
def WishlistItem.validate (p : RawPayload) : Except String WishlistItem :=
  match p.card_id with
  | none => .error "card_id: field required"
  | some cid =>
    match p.name with
    | none => .error "name: field required"
    | some nm =>
      match resolveStatusStr p.status with
      | .error e => .error e
      | .ok st =>
        match p.desired_price with
        | some d =>
          if d < 0 then
            .error "desired_price: ensure this value is greater than or equal to 0"
          else
            .ok { card_id := cid, name := nm, set_name := p.set_name,
                  set_id := p.set_id, number := p.number, image_url := p.image_url,
                  desired_price := some d, notes := p.notes, status := st }
        | none =>
          .ok { card_id := cid, name := nm, set_name := p.set_name,
                set_id := p.set_id, number := p.number, image_url := p.image_url,
                desired_price := none, notes := p.notes, status := st }

/-- Outcome of one insert attempt by the document store, as the handler observes it:
either an identifier is assigned, or the operation raises with a message (no
connection, insert failure). -/
inductive CreateOutcome where
  | assigns (oid : String)
  | failure (msg : String)
  deriving DecidableEq, Repr

/-- Modelled from the spec: `create_document` lives in `database.py`, which is not
under `src/`.  Spec section 4.3: "create(collection, item): serialize the validated
item to a storage record and insert it; returns the assigned identifier. Fails with a
store error if no connection is available or the insert fails."  The store's behaviour
on this call is passed in as a `CreateOutcome`. -/
def create_document (store : CreateOutcome) (collection : String)
    (item : WishlistIn) : Except String String :=
  match store with
  | .assigns oid => .ok oid
  | .failure msg => .error msg

/-- Embedding of the `POST /api/wishlist` handler `add_wishlist`
(src/main.py lines 133-139), taking the already-validated body: any exception from
`create_document` becomes `HTTPException(500, str(e))`, success returns the new id. -/
def add_wishlist (store : CreateOutcome) (item : WishlistIn) : HResult String :=
  match create_document store "wishlistitem" item with
  | .ok doc_id => .ok doc_id
  | .error e => .httpError 500 e

/-- The full `POST /api/wishlist` pipeline: FastAPI first validates the raw body
against `WishlistIn` (responding 422 on a validation error) and only then invokes the
handler, which performs the store write. -/
def post_wishlist (store : CreateOutcome) (p : RawPayload) : HResult String :=
  match WishlistIn.validate p with
  | .error msg => .httpError 422 msg
  | .ok item => add_wishlist store item

/-- A record stored in the `wishlistitem` collection: its store-assigned identifier
(the `_id`, opaque to this service, kept here as the string `str` would render) and
its remaining fields as a field-name/value association list. -/
structure Document where
  oid : String
  fields : List (String × String)
  deriving DecidableEq, Repr

/-- State of the store as one query observes it: available with its stored records, or
failing (no connection, query error) with an exception message. -/
inductive QueryOutcome where
  | avail (docs : List Document)
  | failure (msg : String)
  deriving DecidableEq, Repr

/-- Modelled from the spec: `get_documents` lives in `database.py`, which is not under
`src/`.  Spec section 4.3: "query(collection, filter): given an equality-filter
mapping (key to value, empty mapping means all), return all matching records in
store-native order". -/
def get_documents (store : QueryOutcome) (collection : String)
    (filter_dict : List (String × String)) : Except String (List Document) :=
  match store with
  | .failure msg => .error msg
  | .avail docs =>
    .ok (docs.filter (fun d => filter_dict.all (fun kv => d.fields.lookup kv.1 == some kv.2)))

/-- An item as returned by `GET /api/wishlist`: the identifier rendered as a string —
`d["id"] = str(d.pop("_id"))` — plus the remaining stored fields. -/
structure WishlistOut where
  id : String
  fields : List (String × String)
  deriving DecidableEq, Repr

/-- Embedding of the `GET /api/wishlist` handler `list_wishlist`
(src/main.py lines 141-152): the filter dict holds the status key only when the
`status` query parameter is truthy, and each returned record's identifier is exposed
under `id` as a string. -/
def list_wishlist (store : QueryOutcome) (status : Option String) :
    HResult (List WishlistOut) :=
  let filter_dict : List (String × String) :=
    match status with
    | some s => if s != "" then [("status", s)] else []
    | none => []
  match get_documents store "wishlistitem" filter_dict with
  | .ok docs => .ok (docs.map (fun d => { id := d.oid, fields := d.fields }))
  | .error e => .httpError 500 e

/-- The database handle as the diagnostic probe can observe it: `db is None`, or a
handle whose `list_collection_names()` call either returns the names or raises with a
message. -/
inductive DbHandle where
  | isNone
  | connected (listResult : Except String (List String))

/-- The two store environment variables the diagnostic probe reports on. -/
structure EnvDB where
  database_url : Option String
  database_name : Option String
  deriving DecidableEq, Repr

/-- The body returned by `GET /test`. -/
structure TestResponse where
  backend : String
  database : String
  database_url : String
  database_name : String
  connection_status : String
  collections : List String
  deriving DecidableEq, Repr

/-- Embedding of the `GET /test` handler `test_database` (src/main.py lines 38-67):
the response record starts from its defaults, is updated according to the handle and
the outcome of `list_collection_names()` (collections truncated to 10, an error
message truncated to 80 characters), and finally reports the truthiness of the
`DATABASE_URL` and `DATABASE_NAME` environment variables.  Every failure path is
caught, so the function is total and always produces a 200 body. -/
def test_database (db : DbHandle) (env : EnvDB) : TestResponse :=
  let r0 : TestResponse :=
    { backend := "✅ Running", database := "❌ Not Available", database_url := "",
      database_name := "", connection_status := "Not Connected", collections := [] }
  let r1 :=
    match db with
    | .isNone => { r0 with database := "⚠️  Available but not initialized" }
    | .connected res =>
      match res with
      | .ok collections =>
        { r0 with database := "✅ Connected & Working",
                  connection_status := "Connected",
                  collections := collections.take 10 }
      | .error e =>
        { r0 with database := "⚠️  Connected but Error: " ++ e.take 80 }
  { r1 with
    database_url := if truthyOpt env.database_url then "✅ Set" else "❌ Not Set",
    database_name := if truthyOpt env.database_name then "✅ Set" else "❌ Not Set" }

/-- Claim C1: the spec says a non-200 upstream status is surfaced verbatim (e.g. an
upstream 404 yields a 404 with the raw upstream body).  The code raises
`HTTPException(r.status_code, r.text)` inside its own `try` block, whose blanket
`except Exception` catches that very exception and re-raises it as
`HTTPException(500, str(e))` — so each of the three proxy endpoints answers an
upstream 404 with a 500 whose detail is the string rendering "404: Not found", not
with the upstream status and body.  The code's inner raise shows the spec is the
intent; the catch-all is the slip. -/
theorem upstream_error_becomes_500 :
    search_cards (some "name:Charizard") (some 2) (some 10)
      (fun _ => Except.ok { status_code := 404, text := "Not found", json := Except.error "unused" })
      = .httpError 500 "404: Not found" ∧
    get_card "sv3-1"
      (fun _ => Except.ok { status_code := 404, text := "Not found", json := Except.error "unused" })
      = .httpError 500 "404: Not found" ∧
    list_sets (some 1) (some 50) none
      (fun _ => Except.ok { status_code := 404, text := "Not found", json := Except.error "unused" })
      = .httpError 500 "404: Not found" ∧
    (HResult.httpError 500 "404: Not found" : HResult String) ≠ .httpError 404 "Not found" := by
  refine ⟨rfl, rfl, rfl, by decide⟩

/-- Claim C4, counterexample: with `APP_SECRET` (and the two access-token variables)
set but `CARDMARKET_APP_TOKEN` unset, credentials are present, so the claim requires
the "pending implementation" detail; the handler only consults `CARDMARKET_APP_TOKEN`
and answers "not configured". -/
theorem partial_credentials_say_not_configured :
    get_cardmarket_price "sv3-1"
      { app_token := none, app_secret := some "secret",
        access_token := some "token", access_token_secret := some "tokensecret" }
      = .httpError 501 "Cardmarket API not configured. Provide OAuth credentials to enable." ∧
    ("Cardmarket API not configured. Provide OAuth credentials to enable." : String)
      ≠ "Cardmarket integration pending implementation." := by
  refine ⟨rfl, by decide⟩

/-- Claim C4 as amended: for every card id and every environment the endpoint fails
with status 501 and never returns a success; the detail says "not configured" exactly
when `CARDMARKET_APP_TOKEN` is unset or empty, and "pending implementation"
otherwise — the other three credential variables are never consulted. -/
theorem cardmarket_always_501 (card_id : String) (env : CMEnv) :
    get_cardmarket_price card_id env
      = .httpError 501 (if truthyOpt env.app_token
          then "Cardmarket integration pending implementation."
          else "Cardmarket API not configured. Provide OAuth credentials to enable.") ∧
    ∀ v : String, get_cardmarket_price card_id env ≠ .ok v := by
  constructor
  · cases h : truthyOpt env.app_token <;> simp [get_cardmarket_price, h]
  · intro v hcontra
    cases h : truthyOpt env.app_token <;>
      simp [get_cardmarket_price, h] at hcontra

/-- Witness for `cardmarket_always_501` at a concrete card id and environment. -/
theorem cardmarket_always_501_witness :
    get_cardmarket_price "sv3-1"
      { app_token := none, app_secret := none, access_token := none,
        access_token_secret := none }
      = .httpError 501 (if truthyOpt none
          then "Cardmarket integration pending implementation."
          else "Cardmarket API not configured. Provide OAuth credentials to enable.") ∧
    ∀ v : String,
      get_cardmarket_price "sv3-1"
        { app_token := none, app_secret := none, access_token := none,
          access_token_secret := none } ≠ .ok v :=
  cardmarket_always_501 "sv3-1"
    { app_token := none, app_secret := none, access_token := none,
      access_token_secret := none }

/-- Claim C10, counterexample: two environments that agree on the bit "is
`CARDMARKET_APP_TOKEN` set" (it is set in both, to the empty string and to a non-empty
token respectively) nevertheless produce different responses, because `if not
app_token:` tests truthiness, not presence. -/
theorem token_value_changes_response :
    (some "" : Option String).isSome = (some "live-token" : Option String).isSome ∧
    get_cardmarket_price "sv3-1"
      { app_token := some "", app_secret := none, access_token := none,
        access_token_secret := none }
      ≠ get_cardmarket_price "sv3-1"
      { app_token := some "live-token", app_secret := none, access_token := none,
        access_token_secret := none } := by
  refine ⟨rfl, by decide⟩

/-- Claim C10 as amended: the response depends only on whether `CARDMARKET_APP_TOKEN`
is set to a non-empty (truthy) value: any two invocations agreeing on that one bit get
identical responses, regardless of the card id and of the other three credential
variables. -/
theorem cardmarket_depends_only_on_token_truthiness
    (cid1 cid2 : String) (env1 env2 : CMEnv)
    (h : truthyOpt env1.app_token = truthyOpt env2.app_token) :
    get_cardmarket_price cid1 env1 = get_cardmarket_price cid2 env2 := by
  unfold get_cardmarket_price
  rw [h]

/-- Witness for `cardmarket_depends_only_on_token_truthiness`: two concrete
environments with different non-empty tokens, different secrets and different card
ids receive the same response. -/
theorem cardmarket_depends_only_on_token_truthiness_witness :
    truthyOpt (some "x") = truthyOpt (some "other") ∧
    get_cardmarket_price "sv3-1"
      { app_token := some "x", app_secret := none, access_token := none,
        access_token_secret := none }
      = get_cardmarket_price "zzz-99"
      { app_token := some "other", app_secret := some "s", access_token := some "t",
        access_token_secret := some "u" } :=
  ⟨by decide,
   cardmarket_depends_only_on_token_truthiness "sv3-1" "zzz-99"
     { app_token := some "x", app_secret := none, access_token := none,
       access_token_secret := none }
     { app_token := some "other", app_secret := some "s", access_token := some "t",
       access_token_secret := some "u" }
     (by decide)⟩

/-- Claim C7: for every valid wishlist payload, a successful store insert makes
`POST /api/wishlist` return the identifier the store assigned, and any store failure
(including "no live connection") is answered with a 500 whose detail carries the
underlying exception message. -/
theorem add_wishlist_outcomes (item : WishlistIn) (oid msg : String) :
    add_wishlist (CreateOutcome.assigns oid) item = .ok oid ∧
    add_wishlist (CreateOutcome.failure msg) item = .httpError 500 msg :=
  ⟨rfl, rfl⟩

/-- The concrete wishlist body `card_id: sv3-1, name: Charizard, desired_price: -5`
(all other keys absent). -/
def negPricePayload : RawPayload :=
  { card_id := some "sv3-1", name := some "Charizard", set_name := none,
    set_id := none, number := none, image_url := none, desired_price := some (-5),
    notes := none, status := none }

/-- Claim C2: the spec requires a negative `desired_price` to be rejected before any
store write.  The endpoint validates against `main.WishlistIn`, whose
`desired_price: Optional[float] = None` carries no lower bound, so the payload with
`desired_price: -5` passes validation, reaches the store, and the write succeeds —
even though the repository's own `schemas.WishlistItem` declares `ge=0` and would
reject the very same body.  The dropped bound in `WishlistIn` is the slip. -/
theorem negative_price_accepted_and_stored :
    WishlistIn.validate negPricePayload
      = .ok { card_id := "sv3-1", name := "Charizard", set_name := none,
              set_id := none, number := none, image_url := none,
              desired_price := some (-5), notes := none, status := some "watching" } ∧
    post_wishlist (.assigns "65b0c1") negPricePayload = .ok "65b0c1" ∧
    WishlistItem.validate negPricePayload
      = .error "desired_price: ensure this value is greater than or equal to 0" := by
  refine ⟨rfl, rfl, ?_⟩
  have hneg : ((-5 : ℚ) < 0) = True := by norm_num
  simp [WishlistItem.validate, negPricePayload, resolveStatusStr, hneg]

/-- The concrete wishlist body `card_id: sv3-1, name: Pikachu, status: "on-hold"`. -/
def unknownStatusPayload : RawPayload :=
  { card_id := some "sv3-1", name := some "Pikachu", set_name := none,
    set_id := none, number := none, image_url := none, desired_price := none,
    notes := none, status := some (some "on-hold") }

/-- Claim C3, counterexample: the status string "on-hold" is outside
`watching, bought, removed`, yet the payload passes `WishlistIn` validation unchanged
and the endpoint accepts it and writes it to the store — no enumeration check exists
in the code. -/
theorem unknown_status_accepted :
    WishlistIn.validate unknownStatusPayload
      = .ok { card_id := "sv3-1", name := "Pikachu", set_name := none,
              set_id := none, number := none, image_url := none,
              desired_price := none, notes := none, status := some "on-hold" } ∧
    post_wishlist (.assigns "65b0c2") unknownStatusPayload = .ok "65b0c2" ∧
    "on-hold" ∉ (["watching", "bought", "removed"] : List String) := by
  refine ⟨rfl, rfl, by decide⟩

/-- Claim C3 as amended: a payload omitting `status` gets the default `"watching"`,
but no enumeration is enforced — a payload carrying any status value at all (any
string, or an explicit null) is accepted with that value kept verbatim. -/
theorem status_default_no_enum (cid nm : String) (sn si num iu : Option String)
    (dp : Option ℚ) (nts : Option String) (st : Option String) :
    WishlistIn.validate
      { card_id := some cid, name := some nm, set_name := sn, set_id := si,
        number := num, image_url := iu, desired_price := dp, notes := nts,
        status := none }
      = .ok { card_id := cid, name := nm, set_name := sn, set_id := si,
              number := num, image_url := iu, desired_price := dp, notes := nts,
              status := some "watching" } ∧
    WishlistIn.validate
      { card_id := some cid, name := some nm, set_name := sn, set_id := si,
        number := num, image_url := iu, desired_price := dp, notes := nts,
        status := some st }
      = .ok { card_id := cid, name := nm, set_name := sn, set_id := si,
              number := num, image_url := iu, desired_price := dp, notes := nts,
              status := st } :=
  ⟨rfl, rfl⟩

/-- Claim C5: the diagnostic probe is a total function of the observed handle and
environment — it always produces a body in which the collection list is truncated to
at most ten names, the two environment variables are reported as Set or Not Set, the
backend field is present, the handle's absence is reported, a successful listing is
reported with its (truncated) names, and a listing error is swallowed into a message
truncated to 80 characters. -/
theorem test_probe_shape (env : EnvDB) (db : DbHandle) (cs : List String) (e : String) :
    (test_database db env).collections.length ≤ 10 ∧
    (test_database db env).database_url
      = (if truthyOpt env.database_url then "✅ Set" else "❌ Not Set") ∧
    (test_database db env).database_name
      = (if truthyOpt env.database_name then "✅ Set" else "❌ Not Set") ∧
    (test_database db env).backend = "✅ Running" ∧
    (test_database DbHandle.isNone env).database = "⚠️  Available but not initialized" ∧
    (test_database (DbHandle.connected (.ok cs)) env).collections = cs.take 10 ∧
    (test_database (DbHandle.connected (.error e)) env).database
      = "⚠️  Connected but Error: " ++ e.take 80 := by
  refine ⟨?_, ?_, ?_, ?_, rfl, rfl, rfl⟩
  · cases db with
    | isNone => simp [test_database]
    | connected res =>
      cases res with
      | ok l => simp [test_database, List.length_take]
      | error m => simp [test_database]
  · cases db with
    | isNone => rfl
    | connected res => cases res <;> rfl
  · cases db with
    | isNone => rfl
    | connected res => cases res <;> rfl
  · cases db with
    | isNone => rfl
    | connected res => cases res <;> rfl

/-- The forwarded-parameter dictionary written exactly as claim C6 words it: `q` is
included whenever it is non-null, alongside `page` and `pageSize`. -/
def cardsParamsClaimed (q : Option String) (page pageSize : Int) : CardsParams :=
  { page := page, pageSize := pageSize, q := q }

/-- Claim C6, counterexample: for the non-null empty query string the handler's
parameter dictionary omits `q` (`if q:` tests truthiness), so the forwarded
parameters are not exactly the provided `q`, `page`, `pageSize`. -/
theorem empty_q_dropped_from_params :
    cardsParams (some "") 2 10 ≠ cardsParamsClaimed (some "") 2 10 := by
  decide

/-- Claim C6 as amended: whenever the provided `q` is null or non-empty, the
forwarded parameters are exactly `q` (untouched), `page` (default 1) and `pageSize`
(default 24) with no bounds validation — an empty-string `q` is the one value that
gets omitted — and on upstream success (status 200, parseable body) the endpoint
returns the upstream JSON body unchanged. -/
theorem cards_passthrough_amended (q : Option String) (page pageSize : Option Int)
    (r : UpstreamResp) (b : String)
    (hq : ∀ s, q = some s → s ≠ "")
    (hs : r.status_code = 200) (hj : r.json = Except.ok b) :
    cardsParams q (page.getD 1) (pageSize.getD 24)
      = cardsParamsClaimed q (page.getD 1) (pageSize.getD 24) ∧
    search_cards q page pageSize (fun _ => Except.ok r) = .ok b := by
  have hq' : (if truthyOpt q then q else none) = q := by
    cases q with
    | none => simp
    | some s =>
      have hne := hq s rfl
      simp [truthyOpt, hne]
  constructor
  · simp [cardsParams, cardsParamsClaimed, hq']
  · simp [search_cards, search_cards_try, hs, hj]

/-- Witness for `cards_passthrough_amended`: the concrete request
`q=name:Charizard, page=2, pageSize=10` against an upstream that answers 200 with
body `BODY`. -/
theorem cards_passthrough_amended_witness :
    cardsParams (some "name:Charizard") 2 10
      = cardsParamsClaimed (some "name:Charizard") 2 10 ∧
    search_cards (some "name:Charizard") (some 2) (some 10)
      (fun _ => Except.ok { status_code := 200, text := "BODY", json := Except.ok "BODY" })
      = .ok "BODY" := by
  have h := cards_passthrough_amended (some "name:Charizard") (some 2) (some 10)
    { status_code := 200, text := "BODY", json := Except.ok "BODY" } "BODY"
    (by intro s hs; cases hs; decide) rfl rfl
  simpa using h

/-- Claim C8: against an available store, `GET /api/wishlist?status=bought` returns
exactly the stored records whose `status` field equals `"bought"` (records with any
other status, or with no status field, are excluded), the unfiltered endpoint returns
every record, and each returned item is the record's identifier — rendered as a
string under `id` — together with its fields. -/
theorem list_wishlist_status_filter (docs : List Document) :
    list_wishlist (QueryOutcome.avail docs) (some "bought")
      = .ok ((docs.filter (fun d => d.fields.lookup "status" == some "bought")).map
          (fun d => { id := d.oid, fields := d.fields })) ∧
    list_wishlist (QueryOutcome.avail docs) none
      = .ok (docs.map (fun d => { id := d.oid, fields := d.fields })) := by
  constructor
  · simp [list_wishlist, get_documents]
  · simp [list_wishlist, get_documents]

/-- Claim C9: empty-string optional parameters behave as absent ones — the cards
handler builds the same parameter dictionary (and the whole request behaves
identically) for `q=""` as for no `q`, and the wishlist handler with `status=""`
uses the empty filter and returns, for every store state, the same result as with no
status parameter. -/
theorem empty_string_like_absent :
    (∀ page pageSize : Int, cardsParams (some "") page pageSize = cardsParams none page pageSize) ∧
    (∀ (page pageSize : Option Int) (upstream : CardsParams → Except String UpstreamResp),
      search_cards (some "") page pageSize upstream
        = search_cards none page pageSize upstream) ∧
    (∀ store : QueryOutcome, list_wishlist store (some "") = list_wishlist store none) :=
  ⟨fun _ _ => rfl, fun _ _ _ => rfl, fun _ => rfl⟩
